import Mathlib

/-!
Shallow embedding of the numerical core of the AASHTO 1993 pavement-design
repository: the flexible-pavement performance equation and its structural-number
solver, the cascading layer-thickness allocator (src/app.py), the rigid-pavement
capacity evaluator (src/Claude-AI-Rigid.py, src/Cal-Report-Rigid-Pavement.py),
and the log-scale nomograph axis mappings (src/GPT-k-eff.py,
src/Germini-Kcom-LS.py).

Python float arithmetic is idealised as exact arithmetic.  The layer allocator
uses only field operations, max and decimal rounding, and is embedded over ℚ;
the transcendental performance equation and the axis mappings are embedded over
ℝ.  Python round(x, n) is embedded as rounding 10^n * x to the nearest integer
(ties to the upper value); it differs from Python's ties-to-even behaviour only
on exact ties, which none of the statements below go near.
-/

namespace Pavement

/-- Python round(x, 2) on the exact rational value. -/
def roundTo2 (x : ℚ) : ℚ := ((round (100 * x) : ℤ) : ℚ) / 100

/-- Python round(x, 1) on the exact rational value. -/
def roundTo1 (x : ℚ) : ℚ := ((round (10 * x) : ℤ) : ℚ) / 10

/-- Python round(x, 4) on the exact rational value. -/
def roundTo4 (x : ℚ) : ℚ := ((round (10000 * x) : ℤ) : ℚ) / 10000

/-- One active pavement layer as consumed by calculate_layer_thicknesses
(src/app.py): the resilient modulus of its material (MATERIALS[...]["mr_psi"]),
the resolved layer coefficient a_i, the resolved drainage coefficient m_i, and
the chosen design thickness in cm. -/
structure LayerIn where
  mr_psi : ℚ
  layer_coeff : ℚ
  drainage_coeff : ℚ
  thickness_cm : ℚ
  deriving DecidableEq

/-- Per-layer report entry, mirroring the dict appended to results["layers"]
in calculate_layer_thicknesses (src/app.py lines 513-533). -/
structure LayerOut where
  layer_no : ℕ
  mr_psi : ℚ
  a_i : ℚ
  m_i : ℚ
  sn_required_at_layer : ℚ
  min_thickness_inch : ℚ
  min_thickness_cm : ℚ
  design_thickness_cm : ℚ
  design_thickness_inch : ℚ
  sn_contribution : ℚ
  cumulative_sn : ℚ
  is_ok : Bool
  deriving DecidableEq

/-- Entry of the results["sn_values"] list (src/app.py lines 478-482). -/
structure SNValEntry where
  layer_index : ℕ
  mr_below : ℚ
  sn_required : Option ℚ
  deriving DecidableEq

/-- Body of one iteration of the allocation loop in calculate_layer_thicknesses
(src/app.py lines 487-533): given the running cumulative SN and the layer with
its solver result, build the per-layer report entry.  Rounding is applied only
to the reported copies; the pass/fail comparison uses the exact minimum
thickness, exactly as in the source. -/
def entryFor (idx : ℕ) (l : LayerIn) (snopt : Option ℚ) (cum : ℚ) : LayerOut :=
  let a_i := l.layer_coeff
  let m_i := l.drainage_coeff
  let sn_required_at_layer := snopt.getD 0
  let min_thickness_inch : ℚ :=
    if 0 < a_i ∧ 0 < m_i then max 0 (sn_required_at_layer - cum) / (a_i * m_i) else 0
  let min_thickness_cm : ℚ :=
    if 0 < a_i ∧ 0 < m_i then min_thickness_inch * 2.54 else 0
  let design_thickness_cm := l.thickness_cm
  let design_thickness_inch := design_thickness_cm / 2.54
  let sn_contribution := a_i * design_thickness_inch * m_i
  { layer_no := idx
    mr_psi := l.mr_psi
    a_i := a_i
    m_i := m_i
    sn_required_at_layer := sn_required_at_layer
    min_thickness_inch := roundTo2 min_thickness_inch
    min_thickness_cm := roundTo1 min_thickness_cm
    design_thickness_cm := design_thickness_cm
    design_thickness_inch := roundTo2 design_thickness_inch
    sn_contribution := roundTo4 sn_contribution
    cumulative_sn := roundTo2 (cum + sn_contribution)
    is_ok := decide (min_thickness_cm ≤ design_thickness_cm) }

/-- SN contribution of a layer from its chosen design thickness:
a_i * (thickness_cm / 2.54) * m_i, the amount added to cumulative_sn. -/
def layerContrib (l : LayerIn) : ℚ :=
  l.layer_coeff * (l.thickness_cm / 2.54) * l.drainage_coeff

/-- The allocation loop of calculate_layer_thicknesses: walks the active layers
together with their pre-computed solver results, threading the cumulative SN. -/
def allocLoop (cum : ℚ) (idx : ℕ) : List LayerIn → List (Option ℚ) → List LayerOut
  | [], _ => []
  | _ :: _, [] => []
  | l :: rest, snopt :: snrest =>
    entryFor idx l snopt cum :: allocLoop (cum + layerContrib l) (idx + 1) rest snrest

/-- The support modulus below each layer: the next layer's material modulus, or
the subgrade modulus for the deepest layer (src/app.py lines 471-477). -/
def mrBelowList (subgrade_mr : ℚ) : List LayerIn → List ℚ
  | [] => []
  | [_] => [subgrade_mr]
  | _ :: l2 :: rest => l2.mr_psi :: mrBelowList subgrade_mr (l2 :: rest)

/-- The results["sn_values"] list: one solver call per layer against the
modulus of the material below it (src/app.py lines 478-482). -/
def mkSNValues (snOf : ℚ → Option ℚ) (idx : ℕ) : List ℚ → List SNValEntry
  | [] => []
  | mr :: rest => ⟨idx, mr, snOf mr⟩ :: mkSNValues snOf (idx + 1) rest

/-- The structured result dict of calculate_layer_thicknesses. -/
structure AllocResult where
  sn_values : List SNValEntry
  total_sn_required : Option ℚ
  layers : List LayerOut
  total_sn_provided : ℚ
  subgrade_mr : ℚ

/-- Embedding of calculate_layer_thicknesses (src/app.py lines 438-538).  The
call calculate_sn_for_layer(W18, Zr, So, delta_psi, mr) is abstracted as the
function snOf applied to the support modulus mr: the four other arguments are
fixed across every call the allocator makes, and a None return models a solver
failure.  The input list is the list of active layers (the source first drops
the unused-material placeholder entries and returns the empty result when none
remain). -/
def calculate_layer_thicknesses (snOf : ℚ → Option ℚ) (subgrade_mr : ℚ)
    (layers : List LayerIn) : AllocResult :=
  if layers.isEmpty then
    { sn_values := [], total_sn_required := none, layers := [],
      total_sn_provided := 0, subgrade_mr := subgrade_mr }
  else
    let mrs := mrBelowList subgrade_mr layers
    { sn_values := mkSNValues snOf 1 mrs
      total_sn_required := snOf subgrade_mr
      layers := allocLoop 0 1 layers (mrs.map snOf)
      total_sn_provided := roundTo2 ((layers.map layerContrib).sum)
      subgrade_mr := subgrade_mr }

/-- Cumulative SN accumulated by the layers strictly above position i (the
value of the cumulative_sn variable when the loop reaches layer i). -/
def cumBefore (layers : List LayerIn) (i : ℕ) : ℚ :=
  ((layers.take i).map layerContrib).sum

/-- The per-layer required SN the loop body uses at position i, with the
source's falsy-to-zero substitution for a failed solver call. -/
def snReqAt (snOf : ℚ → Option ℚ) (subgrade_mr : ℚ) (layers : List LayerIn) (i : ℕ) : ℚ :=
  (((mrBelowList subgrade_mr layers)[i]?).bind snOf).getD 0

open scoped Classical

noncomputable section

/-- Base-10 logarithm: np.log10 / math.log10 on positive reals. -/
def log10 (x : ℝ) : ℝ := Real.logb 10 x

/-- Embedding of aashto_1993_equation (src/app.py lines 371-395): the signed
residual of the AASHTO 1993 flexible-pavement design equation,
right-hand side minus log10(W18). -/
def aashto_1993_equation (SN W18 Zr So delta_psi Mr : ℝ) : ℝ :=
  let log_W18 := log10 W18
  let term1 := Zr * So
  let term2 := 9.36 * log10 (SN + 1) - 0.20
  let numerator := log10 (delta_psi / (4.2 - 1.5))
  let denominator := 0.4 + 1094 / (SN + 1) ^ (5.19 : ℝ)
  let term3 := numerator / denominator
  let term4 := 2.32 * log10 Mr - 8.07
  term1 + term2 + term3 + term4 - log_W18

/-- Python round(x, 2) over the reals (round-half-up idealisation). -/
def roundTo2R (x : ℝ) : ℝ := ((round (100 * x) : ℤ) : ℝ) / 100

/-- Relational embedding of calculate_sn_for_layer (src/app.py lines 398-412).
brentq(f, 0.01, 25.0, xtol=1e-6, maxiter=100) raises ValueError exactly when
f(0.01) * f(25) > 0 (no sign change across the bracket), which the source
catches and turns into None; otherwise brentq returns a root of f inside the
bracket (idealised here as an exact root) and the source returns it rounded to
two decimals.  A pair (inputs, res) is in the relation iff the modelled call
can return res. -/
def snSolverResult (W18 Zr So delta_psi Mr : ℝ) (res : Option ℝ) : Prop :=
  (0 < aashto_1993_equation 0.01 W18 Zr So delta_psi Mr *
      aashto_1993_equation 25 W18 Zr So delta_psi Mr ∧ res = none) ∨
  (∃ r, 0.01 ≤ r ∧ r ≤ 25 ∧ aashto_1993_equation r W18 Zr So delta_psi Mr = 0 ∧
    aashto_1993_equation 0.01 W18 Zr So delta_psi Mr *
      aashto_1993_equation 25 W18 Zr So delta_psi Mr ≤ 0 ∧
    res = some (roundTo2R r))

/-- Numerator of the strength/support ratio in the rigid-pavement equation:
Sc * Cd * (D^0.75 - 1.132). -/
def rigid_numerator4 (sc_psi cd d_inch : ℝ) : ℝ :=
  sc_psi * cd * (d_inch ^ (0.75 : ℝ) - 1.132)

/-- Denominator of the strength/support ratio in the rigid-pavement equation:
215.63 * J * (D^0.75 - 18.42 / (Ec/k)^0.25). -/
def rigid_denominator4 (j ec_psi k_pci d_inch : ℝ) : ℝ :=
  215.63 * j * (d_inch ^ (0.75 : ℝ) - 18.42 / (ec_psi / k_pci) ^ (0.25 : ℝ))

/-- Embedding of calculate_aashto_rigid_w18 (src/Claude-AI-Rigid.py lines
147-202).  The float("-inf") sentinel of the source is the bottom element of
EReal; the capacity component stays a real number. -/
def calculate_aashto_rigid_w18 (d_inch delta_psi pt zr so sc_psi cd j ec_psi k_pci : ℝ) :
    EReal × ℝ :=
  let term1 := zr * so
  let term2 := 7.35 * log10 (d_inch + 1) - 0.06
  let numerator3 := log10 (delta_psi / (4.5 - 1.5))
  let denominator3 := 1 + 1.624e7 / (d_inch + 1) ^ (8.46 : ℝ)
  let term3 := numerator3 / denominator3
  if rigid_numerator4 sc_psi cd d_inch ≤ 0 ∨ rigid_denominator4 j ec_psi k_pci d_inch ≤ 0 then
    ((⊥ : EReal), 0)
  else
    let inner_term := rigid_numerator4 sc_psi cd d_inch / rigid_denominator4 j ec_psi k_pci d_inch
    if inner_term ≤ 0 then ((⊥ : EReal), 0)
    else
      let term4 := (4.22 - 0.32 * pt) * log10 inner_term
      let log10_w18 := term1 + term2 + term3 + term4
      ((log10_w18 : EReal), (10 : ℝ) ^ log10_w18)

/-- Embedding of calculate_aashto_rigid_w18 from the second source file
(src/Cal-Report-Rigid-Pavement.py lines 163-190); it differs from the
Claude-AI-Rigid.py version only in writing the serviceability denominator as
3.0 instead of 4.5 - 1.5. -/
def calculate_aashto_rigid_w18_report (d_inch delta_psi pt zr so sc_psi cd j ec_psi k_pci : ℝ) :
    EReal × ℝ :=
  let term1 := zr * so
  let term2 := 7.35 * log10 (d_inch + 1) - 0.06
  let numerator3 := log10 (delta_psi / 3.0)
  let denominator3 := 1 + 1.624e7 / (d_inch + 1) ^ (8.46 : ℝ)
  let term3 := numerator3 / denominator3
  if rigid_numerator4 sc_psi cd d_inch ≤ 0 ∨ rigid_denominator4 j ec_psi k_pci d_inch ≤ 0 then
    ((⊥ : EReal), 0)
  else
    let inner_term := rigid_numerator4 sc_psi cd d_inch / rigid_denominator4 j ec_psi k_pci d_inch
    if inner_term ≤ 0 then ((⊥ : EReal), 0)
    else
      let term4 := (4.22 - 0.32 * pt) * log10 inner_term
      let log10_w18 := term1 + term2 + term3 + term4
      ((log10_w18 : EReal), (10 : ℝ) ^ log10_w18)

/-- Embedding of log_map (src/GPT-k-eff.py lines 40-42): value to position on a
two-point calibrated logarithmic axis. -/
def log_map (v vmin vmax pmin pmax : ℝ) : ℝ :=
  pmin + (log10 v - log10 vmin) / (log10 vmax - log10 vmin) * (pmax - pmin)

/-- Embedding of log_unmap (src/GPT-k-eff.py lines 45-47): position back to
value on the same axis. -/
def log_unmap (p vmin vmax pmin pmax : ℝ) : ℝ :=
  (10 : ℝ) ^ (log10 vmin + (p - pmin) / (pmax - pmin) * (log10 vmax - log10 vmin))

/-- Embedding of interpolate_log_scale (src/Germini-Kcom-LS.py lines 12-19):
two-point log-scale interpolation with the source's defensive fallbacks
(returns 0 for a non-positive calibration value; uses t = 0 when the two
calibration points share the same position). -/
def interpolate_log_scale (pixel p1 v1 p2 v2 : ℝ) : ℝ :=
  if v1 ≤ 0 ∨ v2 ≤ 0 then 0
  else
    let log_v1 := log10 v1
    let log_v2 := log10 v2
    let t := if p2 ≠ p1 then (pixel - p1) / (p2 - p1) else 0
    (10 : ℝ) ^ (log_v1 + t * (log_v2 - log_v1))

/-- Concrete design traffic for the worked counterexamples: W18 = 10^5.69. -/
def W18c : ℝ := (10 : ℝ) ^ (5.69 : ℝ)

/-- Concrete astronomically large design traffic: W18 = 10^100. -/
def W18big : ℝ := (10 : ℝ) ^ (100 : ℝ)

/-- A second support modulus slightly above 10000 psi: Mr = 10^4.0001. -/
def Mr2c : ℝ := (10 : ℝ) ^ (4.0001 : ℝ)

/-- Exact root of the performance equation at (W18c, 0, 0.45, 2.7, 10000). -/
def root1 : ℝ := (10 : ℝ) ^ ((1 : ℝ) / 2) - 1

/-- Exact root of the performance equation at (W18c, 0, 0.45, 2.7, Mr2c). -/
def root2 : ℝ := (10 : ℝ) ^ ((584971 : ℝ) / 1170000) - 1

end

/-! Numeric helper lemmas about log10, rpow and the rounding helpers. -/

theorem log10_rpow (x : ℝ) : log10 ((10 : ℝ) ^ x) = x :=
  Real.logb_rpow (by norm_num) (by norm_num)

theorem rpow_log10 {x : ℝ} (hx : 0 < x) : (10 : ℝ) ^ log10 x = x :=
  Real.rpow_logb (by norm_num) (by norm_num) hx

theorem ten_rpow_pos (x : ℝ) : 0 < (10 : ℝ) ^ x :=
  Real.rpow_pos_of_pos (by norm_num) x

theorem ten_rpow_npow (x : ℝ) (n : ℕ) : ((10 : ℝ) ^ x) ^ n = (10 : ℝ) ^ (x * n) := by
  rw [Real.rpow_mul (by norm_num : (0:ℝ) ≤ 10), Real.rpow_natCast]

theorem log10_one_eq : log10 1 = 0 := by
  simp [log10]

theorem log10_lt_log10 {x y : ℝ} (hx : 0 < x) (hxy : x < y) : log10 x < log10 y :=
  Real.logb_lt_logb (by norm_num) hx hxy

theorem ten_rpow_four : (10 : ℝ) ^ (4 : ℝ) = 10000 := by
  rw [show (4:ℝ) = ((4:ℕ):ℝ) by norm_num, Real.rpow_natCast]
  norm_num

theorem log10_10000 : log10 10000 = 4 := by
  rw [← ten_rpow_four, log10_rpow]

theorem ten_rpow_half_sq : ((10 : ℝ) ^ ((1 : ℝ) / 2)) ^ (2 : ℕ) = 10 := by
  rw [ten_rpow_npow]
  norm_num

theorem ten_rpow_half_lb : (3.1622 : ℝ) ≤ (10 : ℝ) ^ ((1 : ℝ) / 2) := by
  have h := ten_rpow_half_sq
  nlinarith [ten_rpow_pos ((1 : ℝ) / 2)]

theorem ten_rpow_half_ub : (10 : ℝ) ^ ((1 : ℝ) / 2) < 3.165 := by
  have h := ten_rpow_half_sq
  nlinarith [ten_rpow_pos ((1 : ℝ) / 2)]

theorem ten_rpow_inv_lt {n : ℕ} {a : ℝ} (ha : 0 ≤ a) (hn : n ≠ 0) (h10 : (10 : ℝ) < a ^ n) :
    (10 : ℝ) ^ ((n : ℝ))⁻¹ < a := by
  refine lt_of_pow_lt_pow_left₀ n ha ?_
  rw [ten_rpow_npow]
  have hne : ((n : ℝ)) ≠ 0 := by
    exact_mod_cast hn
  rw [inv_mul_cancel₀ hne, Real.rpow_one]
  exact h10

theorem lt_ten_rpow_inv {n : ℕ} {a : ℝ} (hn : n ≠ 0) (h10 : a ^ n < 10) :
    a < (10 : ℝ) ^ ((n : ℝ))⁻¹ := by
  refine lt_of_pow_lt_pow_left₀ n (le_of_lt (ten_rpow_pos _)) ?_
  rw [ten_rpow_npow]
  have hne : ((n : ℝ)) ≠ 0 := by
    exact_mod_cast hn
  rw [inv_mul_cancel₀ hne, Real.rpow_one]
  exact h10

theorem ten_rpow_inv_46800 : (10 : ℝ) ^ ((46800 : ℝ))⁻¹ < 1.0002 := by
  refine ten_rpow_inv_lt (by norm_num) (by norm_num) ?_
  have h := one_add_mul_le_pow (show (-2 : ℝ) ≤ 0.0002 by norm_num) 46800
  calc (10 : ℝ) < 1 + (46800 : ℕ) * 0.0002 := by norm_num
    _ ≤ (1 + 0.0002) ^ (46800 : ℕ) := h
    _ = (1.0002 : ℝ) ^ (46800 : ℕ) := by norm_num

theorem ten_rpow_inv_40000 : (10 : ℝ) ^ ((40000 : ℝ))⁻¹ < 1.0006 := by
  refine ten_rpow_inv_lt (by norm_num) (by norm_num) ?_
  have h := one_add_mul_le_pow (show (-2 : ℝ) ≤ 0.0006 by norm_num) 40000
  calc (10 : ℝ) < 1 + (40000 : ℕ) * 0.0006 := by norm_num
    _ ≤ (1 + 0.0006) ^ (40000 : ℕ) := h
    _ = (1.0006 : ℝ) ^ (40000 : ℕ) := by norm_num

theorem one_01_lt_ten_rpow : (1.01 : ℝ) < (10 : ℝ) ^ ((10 : ℝ))⁻¹ := by
  refine lt_ten_rpow_inv (by norm_num) ?_
  norm_num

theorem log10_1_01_lt : log10 1.01 < 1 / 10 := by
  have h := log10_lt_log10 (show (0:ℝ) < 1.01 by norm_num) one_01_lt_ten_rpow
  rwa [log10_rpow, show ((10:ℝ))⁻¹ = 1 / 10 by norm_num] at h

theorem log10_26_gt : 1 / 2 < log10 26 := by
  have h := log10_lt_log10 (show (0:ℝ) < (10:ℝ) ^ ((1:ℝ)/2) from ten_rpow_pos _)
    (lt_of_lt_of_le ten_rpow_half_ub (by norm_num : (3.165:ℝ) ≤ 26))
  rwa [log10_rpow] at h

theorem log10_26_lt : log10 26 < 2 := by
  have h := log10_lt_log10 (show (0:ℝ) < 26 by norm_num)
    (show (26:ℝ) < 100 by norm_num)
  calc log10 26 < log10 100 := h
    _ = 2 := by
      rw [show (100:ℝ) = (10:ℝ) ^ (2:ℝ) by
        rw [show (2:ℝ) = ((2:ℕ):ℝ) by norm_num, Real.rpow_natCast]; norm_num]
      exact log10_rpow 2

theorem roundTo2R_eq_of {x : ℝ} {z : ℤ} (h1 : (z : ℝ) ≤ 100 * x + 1 / 2)
    (h2 : 100 * x + 1 / 2 < z + 1) : roundTo2R x = (z : ℝ) / 100 := by
  unfold roundTo2R
  rw [round_eq, Int.floor_eq_iff.mpr ⟨h1, h2⟩]

theorem roundTo2R_mono {x y : ℝ} (h : x ≤ y) : roundTo2R x ≤ roundTo2R y := by
  unfold roundTo2R
  have h0 : round (100 * x) ≤ round (100 * y) := by
    rw [round_eq, round_eq]
    exact Int.floor_mono (by linarith)
  have h1 : ((round (100 * x) : ℤ) : ℝ) ≤ ((round (100 * y) : ℤ) : ℝ) := by
    exact_mod_cast h0
  linarith

theorem roundTo2R_abs_sub (x : ℝ) : |roundTo2R x - x| ≤ 1 / 200 := by
  have h := abs_sub_round (100 * x)
  rw [abs_sub_comm] at h
  unfold roundTo2R
  have key : ((round (100 * x) : ℤ) : ℝ) / 100 - x
      = (((round (100 * x) : ℤ) : ℝ) - 100 * x) / 100 := by
    ring
  rw [key, abs_div, show |(100:ℝ)| = 100 from abs_of_pos (by norm_num)]
  linarith

theorem aashto_nice (SN e m : ℝ) :
    aashto_1993_equation SN ((10 : ℝ) ^ e) 0 0.45 2.7 ((10 : ℝ) ^ m)
      = 9.36 * log10 (SN + 1) - 0.20 + 2.32 * m - 8.07 - e := by
  simp only [aashto_1993_equation]
  rw [show (2.7 : ℝ) / (4.2 - 1.5) = 1 by norm_num, log10_one_eq, log10_rpow, log10_rpow]
  ring

theorem aashto_c1 (SN : ℝ) :
    aashto_1993_equation SN W18c 0 0.45 2.7 10000 = 9.36 * log10 (SN + 1) - 4.68 := by
  rw [show (10000 : ℝ) = (10 : ℝ) ^ (4 : ℝ) from ten_rpow_four.symm]
  unfold W18c
  rw [aashto_nice]
  ring

theorem aashto_c2 (SN : ℝ) :
    aashto_1993_equation SN W18c 0 0.45 2.7 Mr2c = 9.36 * log10 (SN + 1) - 4.679768 := by
  unfold W18c Mr2c
  rw [aashto_nice]
  ring

theorem aashto_big (SN : ℝ) :
    aashto_1993_equation SN W18big 0 0.45 2.7 10000 = 9.36 * log10 (SN + 1) - 98.99 := by
  rw [show (10000 : ℝ) = (10 : ℝ) ^ (4 : ℝ) from ten_rpow_four.symm]
  unfold W18big
  rw [aashto_nice]
  ring

theorem root1_mem : 0.01 ≤ root1 ∧ root1 ≤ 25 := by
  unfold root1
  constructor
  · have h := ten_rpow_half_lb
    linarith
  · have h := ten_rpow_half_ub
    linarith

theorem aashto_root1 : aashto_1993_equation root1 W18c 0 0.45 2.7 10000 = 0 := by
  rw [aashto_c1]
  unfold root1
  rw [show (10 : ℝ) ^ ((1 : ℝ) / 2) - 1 + 1 = (10 : ℝ) ^ ((1 : ℝ) / 2) by ring, log10_rpow]
  norm_num

theorem root2_bounds :
    3.155 < (10 : ℝ) ^ ((584971 : ℝ) / 1170000)
      ∧ (10 : ℝ) ^ ((584971 : ℝ) / 1170000) < 3.165 := by
  have ht2 : (0 : ℝ) < (10 : ℝ) ^ ((584971 : ℝ) / 1170000) := ten_rpow_pos _
  constructor
  · have hsum : (584971 : ℝ) / 1170000 + 29 / 1170000 = 1 / 2 := by norm_num
    have hmul : (10 : ℝ) ^ ((584971 : ℝ) / 1170000) * (10 : ℝ) ^ ((29 : ℝ) / 1170000)
        = (10 : ℝ) ^ ((1 : ℝ) / 2) := by
      rw [← Real.rpow_add (by norm_num : (0:ℝ) < 10), hsum]
    have hu : (10 : ℝ) ^ ((29 : ℝ) / 1170000) < 1.0006 := by
      have h1 : ((29 : ℝ) / 1170000) ≤ ((40000 : ℝ))⁻¹ := by norm_num
      exact lt_of_le_of_lt ((Real.rpow_le_rpow_left_iff (by norm_num)).mpr h1) ten_rpow_inv_40000
    have h4 : (10 : ℝ) ^ ((584971 : ℝ) / 1170000) * (10 : ℝ) ^ ((29 : ℝ) / 1170000)
        < (10 : ℝ) ^ ((584971 : ℝ) / 1170000) * 1.0006 := mul_lt_mul_of_pos_left hu ht2
    rw [hmul] at h4
    have h5 := ten_rpow_half_lb
    linarith
  · have h6 : (10 : ℝ) ^ ((584971 : ℝ) / 1170000) < (10 : ℝ) ^ ((1 : ℝ) / 2) :=
      (Real.rpow_lt_rpow_left_iff (by norm_num)).mpr (by norm_num)
    have h7 := ten_rpow_half_ub
    linarith

theorem root2_mem : 0.01 ≤ root2 ∧ root2 ≤ 25 := by
  unfold root2
  have h := root2_bounds
  constructor <;> linarith [h.1, h.2]

theorem log10_Mr2c : log10 Mr2c = 4.0001 := by
  unfold Mr2c
  exact log10_rpow _

theorem aashto_root2 : aashto_1993_equation root2 W18c 0 0.45 2.7 Mr2c = 0 := by
  rw [aashto_c2]
  unfold root2
  rw [show (10 : ℝ) ^ ((584971 : ℝ) / 1170000) - 1 + 1 = (10 : ℝ) ^ ((584971 : ℝ) / 1170000)
    by ring, log10_rpow]
  norm_num

theorem c1_f001_neg : aashto_1993_equation 0.01 W18c 0 0.45 2.7 10000 < 0 := by
  rw [aashto_c1, show (0.01 : ℝ) + 1 = 1.01 by norm_num]
  linarith [log10_1_01_lt]

theorem c1_f25_pos : 0 < aashto_1993_equation 25 W18c 0 0.45 2.7 10000 := by
  rw [aashto_c1, show (25 : ℝ) + 1 = 26 by norm_num]
  linarith [log10_26_gt]

theorem c2_f001_neg : aashto_1993_equation 0.01 W18c 0 0.45 2.7 Mr2c < 0 := by
  rw [aashto_c2, show (0.01 : ℝ) + 1 = 1.01 by norm_num]
  linarith [log10_1_01_lt]

theorem c2_f25_pos : 0 < aashto_1993_equation 25 W18c 0 0.45 2.7 Mr2c := by
  rw [aashto_c2, show (25 : ℝ) + 1 = 26 by norm_num]
  linarith [log10_26_gt]

theorem big_f001_neg : aashto_1993_equation 0.01 W18big 0 0.45 2.7 10000 < 0 := by
  rw [aashto_big, show (0.01 : ℝ) + 1 = 1.01 by norm_num]
  linarith [log10_1_01_lt]

theorem big_f25_neg : aashto_1993_equation 25 W18big 0 0.45 2.7 10000 < 0 := by
  rw [aashto_big, show (25 : ℝ) + 1 = 26 by norm_num]
  linarith [log10_26_lt]

theorem roundTo2R_root1 : roundTo2R root1 = 2.16 := by
  unfold root1
  have h1 := ten_rpow_half_lb
  have h2 := ten_rpow_half_ub
  have h := @roundTo2R_eq_of ((10 : ℝ) ^ ((1 : ℝ) / 2) - 1) 216
    (by push_cast; linarith) (by push_cast; linarith)
  rw [h]
  norm_num

theorem roundTo2R_root2 : roundTo2R root2 = 2.16 := by
  unfold root2
  have h1 := root2_bounds
  have h := @roundTo2R_eq_of ((10 : ℝ) ^ ((584971 : ℝ) / 1170000) - 1) 216
    (by push_cast; linarith [h1.1]) (by push_cast; linarith [h1.2])
  rw [h]
  norm_num

theorem snres_c1 : snSolverResult W18c 0 0.45 2.7 10000 (some 2.16) := by
  right
  refine ⟨root1, root1_mem.1, root1_mem.2, aashto_root1, ?_, ?_⟩
  · exact mul_nonpos_iff.mpr (Or.inr ⟨le_of_lt c1_f001_neg, le_of_lt c1_f25_pos⟩)
  · rw [roundTo2R_root1]

theorem snres_c2 : snSolverResult W18c 0 0.45 2.7 Mr2c (some 2.16) := by
  right
  refine ⟨root2, root2_mem.1, root2_mem.2, aashto_root2, ?_, ?_⟩
  · exact mul_nonpos_iff.mpr (Or.inr ⟨le_of_lt c2_f001_neg, le_of_lt c2_f25_pos⟩)
  · rw [roundTo2R_root2]

theorem roundTo2R_pos {x : ℝ} (h : 0.01 ≤ x) : 0 < roundTo2R x := by
  unfold roundTo2R
  have h1 : (1 : ℤ) ≤ round (100 * x) := by
    rw [round_eq]
    have h2 : (1 : ℤ) = ⌊(3 : ℝ) / 2⌋ := by norm_num
    rw [h2]
    exact Int.floor_mono (by linarith)
  have h3 : (1 : ℝ) ≤ ((round (100 * x) : ℤ) : ℝ) := by
    exact_mod_cast h1
  linarith

theorem strictmono_c1 :
    StrictMonoOn (fun s => aashto_1993_equation s W18c 0 0.45 2.7 10000)
      (Set.Icc 0.01 25) := by
  intro a ha b hb hab
  simp only
  rw [aashto_c1, aashto_c1]
  have h1 : (0 : ℝ) < a + 1 := by
    have := ha.1
    linarith
  have h2 := log10_lt_log10 h1 (by linarith : a + 1 < b + 1)
  linarith

theorem ten_thousand_lt_Mr2c : (10000 : ℝ) < Mr2c := by
  unfold Mr2c
  rw [show (10000 : ℝ) = (10 : ℝ) ^ (4 : ℝ) from ten_rpow_four.symm]
  exact (Real.rpow_lt_rpow_left_iff (by norm_num)).mpr (by norm_num)

/-- C1 (amended): whenever the solver calculate_sn_for_layer returns a value,
that value is the two-decimal rounding of an exact root of the performance
equation inside the bracket: the residual vanishes at that underlying root and
the returned value is within 0.005 of it.  The residual at the returned
(rounded) value itself can exceed the claimed 1e-4 tolerance; see the
counterexample theorem. -/
theorem sn_solver_returns_rounded_root (W18 Zr So delta_psi Mr v : ℝ)
    (h : snSolverResult W18 Zr So delta_psi Mr (some v)) :
    ∃ r, 0.01 ≤ r ∧ r ≤ 25 ∧ aashto_1993_equation r W18 Zr So delta_psi Mr = 0 ∧
      v = roundTo2R r ∧ |v - r| ≤ 0.005 := by
  rcases h with ⟨_, hnone⟩ | ⟨r, h1, h2, h3, _, hres⟩
  · cases hnone
  · have hv := Option.some.inj hres
    refine ⟨r, h1, h2, h3, hv, ?_⟩
    rw [hv, show (0.005 : ℝ) = 1 / 200 by norm_num]
    exact roundTo2R_abs_sub r

/-- Witness for C1's amended theorem at the concrete input
(10^5.69, 0, 0.45, 2.7, 10000), where the solver returns 2.16. -/
theorem sn_solver_returns_rounded_root_witness :
    ∃ r, 0.01 ≤ r ∧ r ≤ 25 ∧ aashto_1993_equation r W18c 0 0.45 2.7 10000 = 0 ∧
      (2.16 : ℝ) = roundTo2R r ∧ |(2.16 : ℝ) - r| ≤ 0.005 :=
  sn_solver_returns_rounded_root W18c 0 0.45 2.7 10000 2.16 snres_c1

/-- C1 counterexample: at W18 = 10^5.69, Zr = 0, So = 0.45, ΔPSI = 2.7,
Mr = 10000 psi (all inside the valid envelope) the solver returns 2.16, yet the
residual of the performance equation at 2.16 exceeds 1e-4 in absolute value:
rounding the root to two decimals destroys the claimed tolerance. -/
theorem sn_solver_residual_exceeds_tol :
    snSolverResult W18c 0 0.45 2.7 10000 (some 2.16) ∧
      1e-4 < |aashto_1993_equation 2.16 W18c 0 0.45 2.7 10000| := by
  refine ⟨snres_c1, ?_⟩
  rw [aashto_c1, show (2.16 : ℝ) + 1 = 3.16 by norm_num]
  have key : log10 3.16 < 46799 / 93600 := by
    have hsum : (46799 : ℝ) / 93600 + 1 / 93600 = 1 / 2 := by norm_num
    have hmul : (10 : ℝ) ^ ((46799 : ℝ) / 93600) * (10 : ℝ) ^ ((1 : ℝ) / 93600)
        = (10 : ℝ) ^ ((1 : ℝ) / 2) := by
      rw [← Real.rpow_add (by norm_num : (0:ℝ) < 10), hsum]
    have hu : (10 : ℝ) ^ ((1 : ℝ) / 93600) < 1.0002 := by
      have h1 : ((1 : ℝ) / 93600) ≤ ((46800 : ℝ))⁻¹ := by norm_num
      exact lt_of_le_of_lt ((Real.rpow_le_rpow_left_iff (by norm_num)).mpr h1) ten_rpow_inv_46800
    have ht : (0 : ℝ) < (10 : ℝ) ^ ((46799 : ℝ) / 93600) := ten_rpow_pos _
    have h4 : (10 : ℝ) ^ ((46799 : ℝ) / 93600) * (10 : ℝ) ^ ((1 : ℝ) / 93600)
        < (10 : ℝ) ^ ((46799 : ℝ) / 93600) * 1.0002 := mul_lt_mul_of_pos_left hu ht
    rw [hmul] at h4
    have h5 := ten_rpow_half_lb
    have h6 : (3.16 : ℝ) < (10 : ℝ) ^ ((46799 : ℝ) / 93600) := by linarith
    have h7 := log10_lt_log10 (show (0 : ℝ) < 3.16 by norm_num) h6
    rwa [log10_rpow] at h7
  have hlt : 9.36 * log10 3.16 - 4.68 < -(1e-4) := by linarith
  rw [abs_of_neg (by linarith)]
  linarith

/-- C2: when the residual does not change sign across the bracket [0.01, 25]
(positive endpoint product, scipy brentq's ValueError condition) the solver can
only return the failure value None; in particular it returns None for the
astronomically large traffic target W18 = 10^100 against Mr = 10000 psi; and a
successful return value is always strictly positive, never a clamped or
negative SN. -/
theorem sn_solver_no_root_failure :
    (∀ W18 Zr So delta_psi Mr res,
        0 < aashto_1993_equation 0.01 W18 Zr So delta_psi Mr *
            aashto_1993_equation 25 W18 Zr So delta_psi Mr →
        snSolverResult W18 Zr So delta_psi Mr res → res = none) ∧
    (∀ res, snSolverResult W18big 0 0.45 2.7 10000 res → res = none) ∧
    (∀ W18 Zr So delta_psi Mr v, snSolverResult W18 Zr So delta_psi Mr (some v) → 0 < v) := by
  have hmain : ∀ W18 Zr So delta_psi Mr res,
      0 < aashto_1993_equation 0.01 W18 Zr So delta_psi Mr *
          aashto_1993_equation 25 W18 Zr So delta_psi Mr →
      snSolverResult W18 Zr So delta_psi Mr res → res = none := by
    intro W18 Zr So dp Mr res hpos h
    rcases h with ⟨_, hnone⟩ | ⟨r, _, _, _, hle, _⟩
    · exact hnone
    · linarith
  refine ⟨hmain, ?_, ?_⟩
  · intro res h
    exact hmain _ _ _ _ _ _ (mul_pos_of_neg_of_neg big_f001_neg big_f25_neg) h
  · intro W18 Zr So dp Mr v h
    rcases h with ⟨_, hnone⟩ | ⟨r, h1, _, _, _, hres⟩
    · cases hnone
    · rw [Option.some.inj hres]
      exact roundTo2R_pos (by linarith)

/-- Witness for C2 at concrete inputs: the astronomically large target yields
None, and the successful call of the C1 scenario yields a positive SN. -/
theorem sn_solver_no_root_failure_witness :
    (none : Option ℝ) = none ∧ (0 : ℝ) < 2.16 := by
  constructor
  · exact sn_solver_no_root_failure.2.1 none
      (Or.inl ⟨mul_pos_of_neg_of_neg big_f001_neg big_f25_neg, rfl⟩)
  · exact sn_solver_no_root_failure.2.2 W18c 0 0.45 2.7 10000 2.16 snres_c1

/-- C8 (amended): the equation residual is strictly increasing in the support
modulus at every trial SN, so when the residual is strictly monotone in SN over
the bracket, the exact root for the larger modulus is strictly smaller; the
values the solver returns are those roots rounded to two decimals and are
therefore only non-strictly ordered.  Strict decrease of the returned values
fails; see the counterexample theorem. -/
theorem required_sn_antitone_in_modulus
    (W18 Zr So delta_psi Mr1 Mr2 r1 r2 : ℝ)
    (hMr1 : 0 < Mr1) (hMr : Mr1 < Mr2)
    (hmono : StrictMonoOn (fun s => aashto_1993_equation s W18 Zr So delta_psi Mr1)
      (Set.Icc 0.01 25))
    (hr1 : r1 ∈ Set.Icc (0.01 : ℝ) 25)
    (hroot1 : aashto_1993_equation r1 W18 Zr So delta_psi Mr1 = 0)
    (hr2 : r2 ∈ Set.Icc (0.01 : ℝ) 25)
    (hroot2 : aashto_1993_equation r2 W18 Zr So delta_psi Mr2 = 0) :
    (∀ SN, aashto_1993_equation SN W18 Zr So delta_psi Mr1
        < aashto_1993_equation SN W18 Zr So delta_psi Mr2) ∧
      r2 < r1 ∧ roundTo2R r2 ≤ roundTo2R r1 := by
  have hpt : ∀ SN, aashto_1993_equation SN W18 Zr So delta_psi Mr1
      < aashto_1993_equation SN W18 Zr So delta_psi Mr2 := by
    intro SN
    have hdiff : aashto_1993_equation SN W18 Zr So delta_psi Mr2
        - aashto_1993_equation SN W18 Zr So delta_psi Mr1
        = 2.32 * (log10 Mr2 - log10 Mr1) := by
      simp only [aashto_1993_equation]
      ring
    have hlog := log10_lt_log10 hMr1 hMr
    linarith [hdiff]
  have hlt : r2 < r1 := by
    by_contra hcon
    push_neg at hcon
    have h1 : aashto_1993_equation r1 W18 Zr So delta_psi Mr1
        ≤ aashto_1993_equation r2 W18 Zr So delta_psi Mr1 := by
      rcases eq_or_lt_of_le hcon with heq | hstrict
      · rw [heq]
      · exact le_of_lt (hmono hr1 hr2 hstrict)
    have h2 := hpt r2
    rw [hroot1] at h1
    rw [hroot2] at h2
    linarith
  exact ⟨hpt, hlt, roundTo2R_mono (le_of_lt hlt)⟩

/-- Witness for C8's amended theorem at the concrete pair of moduli
10000 < 10^4.0001 of the counterexample scenario. -/
theorem required_sn_antitone_in_modulus_witness :
    (∀ SN, aashto_1993_equation SN W18c 0 0.45 2.7 10000
        < aashto_1993_equation SN W18c 0 0.45 2.7 Mr2c) ∧
      root2 < root1 ∧ roundTo2R root2 ≤ roundTo2R root1 :=
  required_sn_antitone_in_modulus W18c 0 0.45 2.7 10000 Mr2c root1 root2
    (by norm_num) ten_thousand_lt_Mr2c strictmono_c1
    (Set.mem_Icc.mpr ⟨root1_mem.1, root1_mem.2⟩) aashto_root1
    (Set.mem_Icc.mpr ⟨root2_mem.1, root2_mem.2⟩) aashto_root2

/-- C8 counterexample: for Mr1 = 10000 < Mr2 = 10^4.0001 with every other
parameter fixed, both solver calls succeed and both return exactly 2.16, so the
returned SN is not strictly smaller for the larger modulus. -/
theorem rounded_sn_not_strictly_decreasing :
    (10000 : ℝ) < Mr2c ∧
      snSolverResult W18c 0 0.45 2.7 10000 (some 2.16) ∧
      snSolverResult W18c 0 0.45 2.7 Mr2c (some 2.16) ∧
      ¬ ((2.16 : ℝ) < 2.16) :=
  ⟨ten_thousand_lt_Mr2c, snres_c1, snres_c2, lt_irrefl _⟩

/-! Structural lemmas about the layer allocator. -/

theorem roundTo2_zero : roundTo2 0 = 0 := by
  simp [roundTo2]

theorem roundTo1_zero : roundTo1 0 = 0 := by
  simp [roundTo1]

theorem cumBefore_zero (ls : List LayerIn) : cumBefore ls 0 = 0 := rfl

theorem cumBefore_succ_cons (l : LayerIn) (ls : List LayerIn) (i : ℕ) :
    cumBefore (l :: ls) (i + 1) = layerContrib l + cumBefore ls i := by
  simp [cumBefore, List.take_succ_cons]

theorem mrBelowList_length (sub : ℚ) (ls : List LayerIn) :
    (mrBelowList sub ls).length = ls.length := by
  induction ls with
  | nil => rfl
  | cons l rest ih =>
    cases rest with
    | nil => rfl
    | cons l2 rest2 =>
      simpa [mrBelowList] using ih

theorem allocLoop_getElem (ls : List LayerIn) :
    ∀ (sns : List (Option ℚ)) (cum : ℚ) (idx i : ℕ) (l : LayerIn) (s : Option ℚ),
      ls[i]? = some l → sns[i]? = some s →
      (allocLoop cum idx ls sns)[i]? =
        some (entryFor (idx + i) l s (cum + cumBefore ls i)) := by
  induction ls with
  | nil =>
    intro sns cum idx i l s hl _
    simp at hl
  | cons a rest ih =>
    intro sns cum idx i l s hl hs
    cases sns with
    | nil => simp at hs
    | cons b srest =>
      cases i with
      | zero =>
        simp only [List.getElem?_cons_zero, Option.some.injEq] at hl hs
        subst hl
        subst hs
        simp [allocLoop, cumBefore]
      | succ j =>
        simp only [List.getElem?_cons_succ] at hl hs
        have hrec := ih srest (cum + layerContrib a) (idx + 1) j l s hl hs
        simp only [allocLoop, List.getElem?_cons_succ]
        rw [hrec, cumBefore_succ_cons]
        congr 2
        · omega
        · ring

theorem calc_layers_getElem (snOf : ℚ → Option ℚ) (sub : ℚ) (layers : List LayerIn)
    (i : ℕ) (l : LayerIn) (mr : ℚ) (hl : layers[i]? = some l)
    (hmr : (mrBelowList sub layers)[i]? = some mr) :
    (calculate_layer_thicknesses snOf sub layers).layers[i]? =
      some (entryFor (1 + i) l (snOf mr) (cumBefore layers i)) := by
  cases layers with
  | nil => simp at hl
  | cons a rest =>
    have hs : ((mrBelowList sub (a :: rest)).map snOf)[i]? = some (snOf mr) := by
      rw [List.getElem?_map, hmr]
      rfl
    have hget := allocLoop_getElem (a :: rest) ((mrBelowList sub (a :: rest)).map snOf)
      0 1 i l (snOf mr) hl hs
    simp only [calculate_layer_thicknesses, List.isEmpty_cons, Bool.false_eq_true,
      if_false]
    rw [hget, zero_add]

theorem calc_layers_length (snOf : ℚ → Option ℚ) (sub : ℚ) (layers : List LayerIn) :
    (calculate_layer_thicknesses snOf sub layers).layers.length = layers.length := by
  cases layers with
  | nil => rfl
  | cons a rest =>
    simp only [calculate_layer_thicknesses, List.isEmpty_cons, Bool.false_eq_true,
      if_false]
    have hlen : ∀ (ls : List LayerIn) (sns : List (Option ℚ)) (cum : ℚ) (idx : ℕ),
        sns.length = ls.length → (allocLoop cum idx ls sns).length = ls.length := by
      intro ls
      induction ls with
      | nil => intro sns cum idx _; rfl
      | cons x xs ih =>
        intro sns cum idx hlen
        cases sns with
        | nil => simp at hlen
        | cons y ys =>
          simp only [allocLoop, List.length_cons]
          rw [ih ys _ _ (by simpa using hlen)]
    exact hlen (a :: rest) _ 0 1 (by rw [List.length_map, mrBelowList_length])

theorem snReqAt_eq (snOf : ℚ → Option ℚ) (sub : ℚ) (layers : List LayerIn) (i : ℕ)
    (mr : ℚ) (hmr : (mrBelowList sub layers)[i]? = some mr) :
    snReqAt snOf sub layers i = (snOf mr).getD 0 := by
  unfold snReqAt
  rw [hmr]
  rfl

theorem entryFor_sn_required (idx : ℕ) (l : LayerIn) (snopt : Option ℚ) (cum : ℚ) :
    (entryFor idx l snopt cum).sn_required_at_layer = snopt.getD 0 := rfl

theorem entryFor_pos_fields (idx : ℕ) (l : LayerIn) (snopt : Option ℚ) (cum : ℚ)
    (ha : 0 < l.layer_coeff) (hm : 0 < l.drainage_coeff) :
    (entryFor idx l snopt cum).min_thickness_inch
        = roundTo2 (max 0 (snopt.getD 0 - cum) / (l.layer_coeff * l.drainage_coeff)) ∧
      (entryFor idx l snopt cum).min_thickness_cm
        = roundTo1 (max 0 (snopt.getD 0 - cum) / (l.layer_coeff * l.drainage_coeff) * 2.54) ∧
      ((entryFor idx l snopt cum).is_ok = true ↔
        max 0 (snopt.getD 0 - cum) / (l.layer_coeff * l.drainage_coeff) * 2.54
          ≤ l.thickness_cm) := by
  have hc : 0 < l.layer_coeff ∧ 0 < l.drainage_coeff := ⟨ha, hm⟩
  refine ⟨?_, ?_, ?_⟩
  · simp [entryFor, hc]
  · simp [entryFor, hc]
  · simp [entryFor, hc]

theorem entryFor_deg_fields (idx : ℕ) (l : LayerIn) (snopt : Option ℚ) (cum : ℚ)
    (hc : ¬ (0 < l.layer_coeff ∧ 0 < l.drainage_coeff)) :
    (entryFor idx l snopt cum).min_thickness_inch = 0 ∧
      (entryFor idx l snopt cum).min_thickness_cm = 0 ∧
      ((entryFor idx l snopt cum).is_ok = true ↔ 0 ≤ l.thickness_cm) := by
  refine ⟨?_, ?_, ?_⟩
  · simp [entryFor, hc, roundTo2_zero]
  · simp [entryFor, hc, roundTo1_zero]
  · simp [entryFor, hc]

theorem mrBelowList_congr (sub : ℚ) (ls1 : List LayerIn) :
    ∀ (ls2 : List LayerIn), ls1.length = ls2.length →
      (∀ (i : ℕ) (l1 l2 : LayerIn), ls1[i]? = some l1 → ls2[i]? = some l2 →
        l1.mr_psi = l2.mr_psi) →
      mrBelowList sub ls1 = mrBelowList sub ls2 := by
  induction ls1 with
  | nil =>
    intro ls2 hlen _
    cases ls2 with
    | nil => rfl
    | cons b rest2 => simp at hlen
  | cons a rest1 ih =>
    intro ls2 hlen hsame
    cases ls2 with
    | nil => simp at hlen
    | cons b rest2 =>
      have hlen2 : rest1.length = rest2.length := by simpa using hlen
      have htail : mrBelowList sub rest1 = mrBelowList sub rest2 := by
        refine ih rest2 hlen2 ?_
        intro i l1 l2 h1 h2
        refine hsame (i + 1) l1 l2 ?_ ?_
        · rw [List.getElem?_cons_succ]
          exact h1
        · rw [List.getElem?_cons_succ]
          exact h2
      cases rest1 with
      | nil =>
        cases rest2 with
        | nil => rfl
        | cons d r2 => simp at hlen2
      | cons c r1 =>
        cases rest2 with
        | nil => simp at hlen2
        | cons d r2 =>
          have hcd : c.mr_psi = d.mr_psi :=
            hsame 1 c d (by rw [List.getElem?_cons_succ, List.getElem?_cons_zero])
              (by rw [List.getElem?_cons_succ, List.getElem?_cons_zero])
          show c.mr_psi :: mrBelowList sub (c :: r1) = d.mr_psi :: mrBelowList sub (d :: r2)
          rw [hcd, htail]

theorem allocLoop_map_snreq (ls : List LayerIn) :
    ∀ (sns : List (Option ℚ)) (cum : ℚ) (idx : ℕ),
      (allocLoop cum idx ls sns).map (fun e => e.sn_required_at_layer)
        = (sns.take ls.length).map (fun s => s.getD 0) := by
  induction ls with
  | nil =>
    intro sns cum idx
    simp [allocLoop]
  | cons a rest ih =>
    intro sns cum idx
    cases sns with
    | nil => simp [allocLoop]
    | cons b srest =>
      simp only [allocLoop, List.map_cons, List.length_cons, List.take_succ_cons]
      rw [ih, entryFor_sn_required]

theorem allocLoop_subst (ls : List LayerIn) :
    ∀ (sns : List (Option ℚ)) (cum : ℚ) (idx : ℕ),
      allocLoop cum idx ls (sns.map fun s => some (s.getD 0)) = allocLoop cum idx ls sns := by
  induction ls with
  | nil => intro sns cum idx; cases sns <;> rfl
  | cons a rest ih =>
    intro sns cum idx
    cases sns with
    | nil => rfl
    | cons b srest =>
      simp only [List.map_cons, allocLoop]
      rw [ih]
      have hhead : entryFor idx a (some (b.getD 0)) cum = entryFor idx a b cum := by
        simp [entryFor]
      rw [hhead]

theorem calc_layers_subst (snOf : ℚ → Option ℚ) (sub : ℚ) (layers : List LayerIn) :
    (calculate_layer_thicknesses snOf sub layers).layers
      = (calculate_layer_thicknesses (fun m => some ((snOf m).getD 0)) sub layers).layers := by
  cases layers with
  | nil => rfl
  | cons a rest =>
    simp only [calculate_layer_thicknesses, List.isEmpty_cons, Bool.false_eq_true,
      if_false]
    have hmap : (mrBelowList sub (a :: rest)).map (fun m => some ((snOf m).getD 0))
        = ((mrBelowList sub (a :: rest)).map snOf).map (fun s => some (s.getD 0)) := by
      rw [List.map_map]
      rfl
    rw [hmap, allocLoop_subst]

theorem getElem?_lt_len {α : Type} {ls : List α} {i : ℕ} {a : α}
    (h : ls[i]? = some a) : i < ls.length := by
  by_contra hcon
  push_neg at hcon
  rw [List.getElem?_eq_none hcon] at h
  cases h

theorem cumBefore_succ (layers : List LayerIn) (i : ℕ) (l : LayerIn)
    (hl : layers[i]? = some l) :
    cumBefore layers (i + 1) = cumBefore layers i + layerContrib l := by
  unfold cumBefore
  rw [List.take_succ, hl]
  simp

/-- C3 (amended): for every layer with positive layer and drainage
coefficients, the reported minimum thickness in inches is the incremental
formula max(0, SN_required_at_layer - CumulativeSN) / (a * m) rounded to two
decimals — the exact (unrounded) value is what the pass/fail comparison uses —
and for a single-layer system it is SN_required / (a * m) rounded to two
decimals.  Exact equality of the reported value with the formula fails; see
the counterexample theorem. -/
theorem layer_min_thickness_formula (snOf : ℚ → Option ℚ) (sub : ℚ)
    (layers : List LayerIn) (i : ℕ) (l : LayerIn)
    (hl : layers[i]? = some l)
    (ha : 0 < l.layer_coeff) (hm : 0 < l.drainage_coeff) :
    ∃ e : LayerOut, (calculate_layer_thicknesses snOf sub layers).layers[i]? = some e ∧
      e.min_thickness_inch = roundTo2 (max 0 (snReqAt snOf sub layers i - cumBefore layers i)
        / (l.layer_coeff * l.drainage_coeff)) ∧
      (e.is_ok = true ↔ max 0 (snReqAt snOf sub layers i - cumBefore layers i)
        / (l.layer_coeff * l.drainage_coeff) * 2.54 ≤ l.thickness_cm) ∧
      (∀ l0 : LayerIn, layers = [l0] → 0 ≤ (snOf sub).getD 0 →
        e.min_thickness_inch = roundTo2 ((snOf sub).getD 0
          / (l.layer_coeff * l.drainage_coeff))) := by
  have hi : i < layers.length := getElem?_lt_len hl
  have himr : i < (mrBelowList sub layers).length := by
    rw [mrBelowList_length]
    exact hi
  obtain ⟨mr, hmr⟩ : ∃ mr, (mrBelowList sub layers)[i]? = some mr :=
    ⟨_, List.getElem?_eq_getElem himr⟩
  have hentry := calc_layers_getElem snOf sub layers i l mr hl hmr
  have hsn := snReqAt_eq snOf sub layers i mr hmr
  have hfields := entryFor_pos_fields (1 + i) l (snOf mr) (cumBefore layers i) ha hm
  refine ⟨_, hentry, ?_, ?_, ?_⟩
  · rw [hfields.1, hsn]
  · rw [hsn]
    exact hfields.2.2
  · intro l0 hlay hpos
    subst hlay
    cases i with
    | succ j => simp at hl
    | zero =>
      have hmr0 : mr = sub := by
        have hxs : (mrBelowList sub [l0])[0]? = some sub := by
          show [sub][0]? = some sub
          simp
        rw [hxs] at hmr
        exact (Option.some.inj hmr).symm
      subst hmr0
      rw [hfields.1, cumBefore_zero, sub_zero, max_eq_right hpos]

/-- Witness for C3's amended theorem on the concrete single-layer system with
a = 0.3, m = 1 and required SN 1. -/
theorem layer_min_thickness_formula_witness :
    ∃ e : LayerOut, (calculate_layer_thicknesses (fun _ => some 1) 7500
        [⟨7500, 3/10, 1, 10⟩]).layers[0]? = some e ∧
      e.min_thickness_inch = roundTo2 (max 0 ((1 : ℚ) - 0) / (3/10 * 1)) ∧
      (e.is_ok = true ↔ max 0 ((1 : ℚ) - 0) / (3/10 * 1) * 2.54 ≤ 10) ∧
      (∀ l0 : LayerIn, [(⟨7500, 3/10, 1, 10⟩ : LayerIn)] = [l0] → (0 : ℚ) ≤ 1 →
        e.min_thickness_inch = roundTo2 ((1 : ℚ) / (3/10 * 1))) :=
  layer_min_thickness_formula (fun _ => some 1) 7500 [⟨7500, 3/10, 1, 10⟩] 0
    ⟨7500, 3/10, 1, 10⟩ (by simp) (by norm_num) (by norm_num)

/-- C3 counterexample: a single layer with a = 0.3, m = 1 and required SN 1:
the formula gives exactly 10/3 inches, but the reported minimum thickness is
the rounded value 3.33, which differs from the formula value. -/
theorem reported_min_thickness_is_rounded :
    ((calculate_layer_thicknesses (fun _ => some 1) 7500
        [⟨7500, 3/10, 1, 10⟩]).layers.map fun e => e.min_thickness_inch) = [333/100] ∧
      (333/100 : ℚ) ≠ max 0 ((1 : ℚ) - 0) / (3/10 * 1) := by
  constructor
  · norm_num [calculate_layer_thicknesses, mrBelowList, allocLoop, entryFor,
      roundTo2, round_eq]
  · norm_num

/-- C6: a layer whose layer coefficient or drainage coefficient is zero gets a
reported minimum thickness of exactly zero (inches and cm), its pass/fail flag
compares the design thickness against zero (so any non-negative design
passes), the allocation still produces an entry for every layer, and the
degenerate layer contributes exactly zero to the cumulative SN seen by the
layers below it — no undefined division is performed and nothing propagates. -/
theorem degenerate_layer_zero_min (snOf : ℚ → Option ℚ) (sub : ℚ)
    (layers : List LayerIn) (i : ℕ) (l : LayerIn)
    (hl : layers[i]? = some l)
    (hdeg : l.layer_coeff = 0 ∨ l.drainage_coeff = 0) :
    ∃ e : LayerOut, (calculate_layer_thicknesses snOf sub layers).layers[i]? = some e ∧
      e.min_thickness_inch = 0 ∧ e.min_thickness_cm = 0 ∧
      (e.is_ok = true ↔ 0 ≤ l.thickness_cm) ∧
      (calculate_layer_thicknesses snOf sub layers).layers.length = layers.length ∧
      layerContrib l = 0 ∧
      cumBefore layers (i + 1) = cumBefore layers i := by
  have hi : i < layers.length := getElem?_lt_len hl
  have himr : i < (mrBelowList sub layers).length := by
    rw [mrBelowList_length]
    exact hi
  obtain ⟨mr, hmr⟩ : ∃ mr, (mrBelowList sub layers)[i]? = some mr :=
    ⟨_, List.getElem?_eq_getElem himr⟩
  have hentry := calc_layers_getElem snOf sub layers i l mr hl hmr
  have hc : ¬ (0 < l.layer_coeff ∧ 0 < l.drainage_coeff) := by
    rcases hdeg with h | h <;> simp [h]
  have hfields := entryFor_deg_fields (1 + i) l (snOf mr) (cumBefore layers i) hc
  have hcontrib : layerContrib l = 0 := by
    unfold layerContrib
    rcases hdeg with h | h <;> rw [h] <;> ring
  refine ⟨_, hentry, hfields.1, hfields.2.1, hfields.2.2,
    calc_layers_length _ _ _, hcontrib, ?_⟩
  rw [cumBefore_succ layers i l hl, hcontrib, add_zero]

/-- Witness for C6 on a single zero-coefficient layer. -/
theorem degenerate_layer_zero_min_witness :
    ∃ e : LayerOut, (calculate_layer_thicknesses (fun _ => some 2) 8000
        [⟨8000, 0, 1, 15⟩]).layers[0]? = some e ∧
      e.min_thickness_inch = 0 ∧ e.min_thickness_cm = 0 ∧
      (e.is_ok = true ↔ (0 : ℚ) ≤ 15) ∧
      (calculate_layer_thicknesses (fun _ => some 2) 8000
        [⟨8000, 0, 1, 15⟩]).layers.length = [(⟨8000, 0, 1, 15⟩ : LayerIn)].length ∧
      layerContrib ⟨8000, 0, 1, 15⟩ = 0 ∧
      cumBefore [⟨8000, 0, 1, 15⟩] 1 = cumBefore [⟨8000, 0, 1, 15⟩] 0 :=
  degenerate_layer_zero_min (fun _ => some 2) 8000 [⟨8000, 0, 1, 15⟩] 0
    ⟨8000, 0, 1, 15⟩ (by simp) (Or.inl rfl)

/-- C7: two runs of the allocator on layer stacks that agree in every material
property (modulus below, layer coefficient, drainage coefficient) and differ
only in the chosen design thicknesses produce identical per-layer required-SN
values, identical sn_values lists, and the same total required SN: each
layer's SN requirement depends only on the support modulus below it, never on
thicknesses chosen above. -/
theorem sn_requirement_thickness_invariant (snOf : ℚ → Option ℚ) (sub : ℚ)
    (layers1 layers2 : List LayerIn)
    (hlen : layers1.length = layers2.length)
    (hsame : ∀ (i : ℕ) (l1 l2 : LayerIn), layers1[i]? = some l1 → layers2[i]? = some l2 →
      l1.mr_psi = l2.mr_psi ∧ l1.layer_coeff = l2.layer_coeff ∧
        l1.drainage_coeff = l2.drainage_coeff) :
    ((calculate_layer_thicknesses snOf sub layers1).layers.map
        fun e => e.sn_required_at_layer)
      = ((calculate_layer_thicknesses snOf sub layers2).layers.map
        fun e => e.sn_required_at_layer) ∧
    (calculate_layer_thicknesses snOf sub layers1).sn_values
      = (calculate_layer_thicknesses snOf sub layers2).sn_values ∧
    (calculate_layer_thicknesses snOf sub layers1).total_sn_required
      = (calculate_layer_thicknesses snOf sub layers2).total_sn_required := by
  have hmr : mrBelowList sub layers1 = mrBelowList sub layers2 :=
    mrBelowList_congr sub layers1 layers2 hlen
      (fun i l1 l2 h1 h2 => (hsame i l1 l2 h1 h2).1)
  cases layers1 with
  | nil =>
    cases layers2 with
    | nil => exact ⟨rfl, rfl, rfl⟩
    | cons b rest2 => simp at hlen
  | cons a rest1 =>
    cases layers2 with
    | nil => simp at hlen
    | cons b rest2 =>
      simp only [calculate_layer_thicknesses, List.isEmpty_cons, Bool.false_eq_true,
        if_false]
      refine ⟨?_, ?_, trivial⟩
      · rw [allocLoop_map_snreq, allocLoop_map_snreq, hmr, hlen]
      · rw [hmr]

/-- Witness for C7: two single-layer stacks of the same material, one 10 cm
thick and one 30 cm thick. -/
theorem sn_requirement_thickness_invariant_witness :
    ((calculate_layer_thicknesses (fun m => some (m / 1000)) 5000
        [⟨4000, 2/5, 1, 10⟩]).layers.map fun e => e.sn_required_at_layer)
      = ((calculate_layer_thicknesses (fun m => some (m / 1000)) 5000
        [⟨4000, 2/5, 1, 30⟩]).layers.map fun e => e.sn_required_at_layer) ∧
    (calculate_layer_thicknesses (fun m => some (m / 1000)) 5000
        [⟨4000, 2/5, 1, 10⟩]).sn_values
      = (calculate_layer_thicknesses (fun m => some (m / 1000)) 5000
        [⟨4000, 2/5, 1, 30⟩]).sn_values ∧
    (calculate_layer_thicknesses (fun m => some (m / 1000)) 5000
        [⟨4000, 2/5, 1, 10⟩]).total_sn_required
      = (calculate_layer_thicknesses (fun m => some (m / 1000)) 5000
        [⟨4000, 2/5, 1, 30⟩]).total_sn_required :=
  sn_requirement_thickness_invariant (fun m => some (m / 1000)) 5000
    [⟨4000, 2/5, 1, 10⟩] [⟨4000, 2/5, 1, 30⟩] rfl
    (by
      intro i l1 l2 h1 h2
      cases i with
      | zero =>
        simp only [List.getElem?_cons_zero, Option.some.injEq] at h1 h2
        subst h1
        subst h2
        exact ⟨rfl, rfl, rfl⟩
      | succ j => simp at h1)

/-- C10: when the solver call for a layer fails (returns None), the allocator
silently substitutes zero for that layer's required SN: the layer's entry
reports a required SN of 0, a minimum thickness of 0 (inches and cm), its
pass/fail flag compares the design thickness against zero (so any non-negative
design passes), and the per-layer report is exactly what it would have been
had the solver succeeded with value 0 — no per-layer failure marker appears in
the layers report. -/
theorem solver_failure_silently_zero (snOf : ℚ → Option ℚ) (sub : ℚ)
    (layers : List LayerIn) (i : ℕ) (l : LayerIn) (mr : ℚ)
    (hl : layers[i]? = some l) (hmr : (mrBelowList sub layers)[i]? = some mr)
    (hfail : snOf mr = none) (hcum : 0 ≤ cumBefore layers i) :
    ∃ e : LayerOut, (calculate_layer_thicknesses snOf sub layers).layers[i]? = some e ∧
      e.sn_required_at_layer = 0 ∧
      e.min_thickness_inch = 0 ∧ e.min_thickness_cm = 0 ∧
      (e.is_ok = true ↔ 0 ≤ l.thickness_cm) ∧
      (calculate_layer_thicknesses snOf sub layers).layers
        = (calculate_layer_thicknesses (fun m => some ((snOf m).getD 0)) sub layers).layers := by
  have hentry := calc_layers_getElem snOf sub layers i l mr hl hmr
  rw [hfail] at hentry
  have hmax : max 0 (((none : Option ℚ).getD 0) - cumBefore layers i) = 0 :=
    max_eq_left (by simpa using hcum)
  refine ⟨_, hentry, ?_, ?_, ?_, ?_, calc_layers_subst snOf sub layers⟩
  · rw [entryFor_sn_required]
    rfl
  · by_cases hc : 0 < l.layer_coeff ∧ 0 < l.drainage_coeff
    · rw [(entryFor_pos_fields _ _ _ _ hc.1 hc.2).1, hmax, zero_div, roundTo2_zero]
    · exact (entryFor_deg_fields _ _ _ _ hc).1
  · by_cases hc : 0 < l.layer_coeff ∧ 0 < l.drainage_coeff
    · rw [(entryFor_pos_fields _ _ _ _ hc.1 hc.2).2.1, hmax, zero_div, zero_mul,
        roundTo1_zero]
    · exact (entryFor_deg_fields _ _ _ _ hc).2.1
  · by_cases hc : 0 < l.layer_coeff ∧ 0 < l.drainage_coeff
    · have hiff := (entryFor_pos_fields (1 + i) l none (cumBefore layers i)
        hc.1 hc.2).2.2
      rw [hmax, zero_div, zero_mul] at hiff
      exact hiff
    · exact (entryFor_deg_fields _ _ _ _ hc).2.2

/-- Witness for C10 on a single layer whose solver call fails. -/
theorem solver_failure_silently_zero_witness :
    ∃ e : LayerOut, (calculate_layer_thicknesses (fun _ => none) 3000
        [⟨7500, 2/5, 1, 10⟩]).layers[0]? = some e ∧
      e.sn_required_at_layer = 0 ∧
      e.min_thickness_inch = 0 ∧ e.min_thickness_cm = 0 ∧
      (e.is_ok = true ↔ (0 : ℚ) ≤ 10) ∧
      (calculate_layer_thicknesses (fun _ => none) 3000
          [⟨7500, 2/5, 1, 10⟩]).layers
        = (calculate_layer_thicknesses (fun m => some (((fun _ => (none : Option ℚ)) m).getD 0))
            3000 [⟨7500, 2/5, 1, 10⟩]).layers :=
  solver_failure_silently_zero (fun _ => none) 3000 [⟨7500, 2/5, 1, 10⟩] 0
    ⟨7500, 2/5, 1, 10⟩ 3000 (by simp)
    (by
      show [(3000 : ℚ)][0]? = some 3000
      simp)
    rfl (le_refl 0)

/-- C4: for a logarithmic axis calibrated from two points with strictly
positive, distinct values and distinct positions, log_unmap inverts log_map
exactly (in exact real arithmetic, hence within any floating-point tolerance)
for every value in (v_min, v_max], and log_map reproduces both calibration
positions exactly. -/
theorem log_axis_roundtrip (v vmin vmax pmin pmax : ℝ)
    (hvmin : 0 < vmin) (hvmax : 0 < vmax) (hne : vmin ≠ vmax) (hp : pmin ≠ pmax)
    (hv1 : vmin < v) (_hv2 : v ≤ vmax) :
    log_unmap (log_map v vmin vmax pmin pmax) vmin vmax pmin pmax = v ∧
      log_map vmin vmin vmax pmin pmax = pmin ∧
      log_map vmax vmin vmax pmin pmax = pmax := by
  have hv : 0 < v := lt_trans hvmin hv1
  have hd : log10 vmax - log10 vmin ≠ 0 := by
    intro h
    apply hne
    have heq : Real.logb 10 vmax = Real.logb 10 vmin := by
      have := sub_eq_zero.mp h
      simpa [log10] using this
    exact (Real.logb_injOn_pos (by norm_num : (1:ℝ) < 10)
      (Set.mem_Ioi.mpr hvmin) (Set.mem_Ioi.mpr hvmax) heq.symm)
  have hP : pmax - pmin ≠ 0 := sub_ne_zero.mpr (Ne.symm hp)
  refine ⟨?_, ?_, ?_⟩
  · unfold log_unmap log_map
    have hE : log10 vmin + (pmin + (log10 v - log10 vmin) / (log10 vmax - log10 vmin)
        * (pmax - pmin) - pmin) / (pmax - pmin) * (log10 vmax - log10 vmin)
        = log10 v := by
      field_simp
      ring
    rw [hE]
    exact rpow_log10 hv
  · unfold log_map
    rw [sub_self, zero_div, zero_mul, add_zero]
  · unfold log_map
    rw [div_self hd, one_mul]
    ring

/-- Witness for C4 on the axis calibrated by (position 0, value 1) and
(position 700, value 100), read at v = 10. -/
theorem log_axis_roundtrip_witness :
    log_unmap (log_map 10 1 100 0 700) 1 100 0 700 = 10 ∧
      log_map 1 1 100 0 700 = 0 ∧
      log_map 100 1 100 0 700 = 700 :=
  log_axis_roundtrip 10 1 100 0 700 (by norm_num) (by norm_num) (by norm_num)
    (by norm_num) (by norm_num) (by norm_num)

/-- C5: whenever the numerator or the denominator of the strength/support
ratio is non-positive — on inputs where the preceding terms are themselves
well-defined (positive serviceability loss, non-negative thickness, non-zero
support modulus) — both rigid-pavement evaluators return the defined
no-capacity result (-inf, 0) instead of entering the logarithm; and the
condition is reachable: at zero slab thickness the numerator is negative for
any positive strength and drainage inputs. -/
theorem rigid_guard_no_capacity :
    (∀ d_inch delta_psi pt zr so sc_psi cd j ec_psi k_pci : ℝ,
        0 < delta_psi → 0 ≤ d_inch → k_pci ≠ 0 →
        rigid_numerator4 sc_psi cd d_inch ≤ 0 ∨
          rigid_denominator4 j ec_psi k_pci d_inch ≤ 0 →
        calculate_aashto_rigid_w18 d_inch delta_psi pt zr so sc_psi cd j ec_psi k_pci
            = ((⊥ : EReal), 0) ∧
          calculate_aashto_rigid_w18_report d_inch delta_psi pt zr so sc_psi cd j ec_psi k_pci
            = ((⊥ : EReal), 0)) ∧
    (∀ sc_psi cd : ℝ, 0 < sc_psi → 0 < cd → rigid_numerator4 sc_psi cd 0 < 0) := by
  constructor
  · intro d dp pt zr so sc cd j ec k _ _ _ h
    constructor
    · simp only [calculate_aashto_rigid_w18]
      rw [if_pos h]
    · simp only [calculate_aashto_rigid_w18_report]
      rw [if_pos h]
  · intro sc cd hsc hcd
    unfold rigid_numerator4
    rw [Real.zero_rpow (by norm_num : (0.75:ℝ) ≠ 0)]
    nlinarith [mul_pos hsc hcd]

/-- Witness for C5 at a zero-thickness slab with realistic strength, drainage,
load-transfer and support parameters. -/
theorem rigid_guard_no_capacity_witness :
    (calculate_aashto_rigid_w18 0 1.7 2.5 (-1.282) 0.35 650 1 3.2 4000000 200
        = ((⊥ : EReal), 0) ∧
      calculate_aashto_rigid_w18_report 0 1.7 2.5 (-1.282) 0.35 650 1 3.2 4000000 200
        = ((⊥ : EReal), 0)) ∧
      rigid_numerator4 650 1 0 < 0 := by
  have hnum : rigid_numerator4 650 1 0 < 0 :=
    rigid_guard_no_capacity.2 650 1 (by norm_num) (by norm_num)
  exact ⟨rigid_guard_no_capacity.1 0 1.7 2.5 (-1.282) 0.35 650 1 3.2 4000000 200
    (by norm_num) le_rfl (by norm_num) (Or.inl (le_of_lt hnum)), hnum⟩

theorem interp_same_pos (pixel p v1 v2 : ℝ) (h1 : 0 < v1) (h2 : 0 < v2) :
    interpolate_log_scale pixel p v1 p v2 = v1 := by
  simp only [interpolate_log_scale]
  rw [if_neg (by push_neg; exact ⟨h1, h2⟩)]
  rw [if_neg (by simp : ¬ (p ≠ p))]
  rw [zero_mul, add_zero]
  exact rpow_log10 h1

theorem interp_nonpos (pixel p1 v1 p2 v2 : ℝ) (h : v1 ≤ 0 ∨ v2 ≤ 0) :
    interpolate_log_scale pixel p1 v1 p2 v2 = 0 := by
  simp only [interpolate_log_scale]
  rw [if_pos h]

/-- C9 (amended): the calibrator never raises an InsufficientCalibration
error: interpolate_log_scale applied to two calibration points that share the
same position (with positive values) silently returns the first point's value,
and it returns the fallback value 0 whenever a calibration value is
non-positive.  No failure is surfaced in either degenerate case. -/
theorem interpolate_degenerate_silent :
    (∀ pixel p v1 v2 : ℝ, 0 < v1 → 0 < v2 →
        interpolate_log_scale pixel p v1 p v2 = v1) ∧
    (∀ pixel p1 v1 p2 v2 : ℝ, v1 ≤ 0 ∨ v2 ≤ 0 →
        interpolate_log_scale pixel p1 v1 p2 v2 = 0) :=
  ⟨interp_same_pos, interp_nonpos⟩

/-- Witness for C9's amended theorem at concrete degenerate calibrations. -/
theorem interpolate_degenerate_silent_witness :
    interpolate_log_scale 7 2 50 2 80 = 50 ∧ interpolate_log_scale 7 2 (-1) 9 80 = 0 :=
  ⟨interpolate_degenerate_silent.1 7 2 50 80 (by norm_num) (by norm_num),
    interpolate_degenerate_silent.2 7 2 (-1) 9 80 (Or.inl (by norm_num))⟩

/-- C9 counterexample: two calibration points that share position 3 but carry
the different values 100 and 200 do not cause a failure: the interpolation
silently produces the value 100 — a mapping is produced, contradicting the
claim that construction fails and no value is returned. -/
theorem interpolate_fabricates_value :
    interpolate_log_scale 5 3 100 3 200 = 100 :=
  interp_same_pos 5 3 100 200 (by norm_num) (by norm_num)

end Pavement
